import Mathlib

/-!
Verification of the r3fresh agent-lifecycle instrumentation library.

This file is a shallow embedding of the tool-call interception pipeline and
its collaborators, translated from the Python sources:

  src/src/alm_sdk/util.py        (create_structured_error, redact_sensitive)
  src/r3fresh/src/r3fresh/policy.py  (Policy)
  src/src/r3fresh/events.py      (event constructors)
  src/src/r3fresh/client.py      (EventClient)
  src/src/alm_sdk/run.py         (Run scope)
  src/src/r3fresh/alm.py         (ALM state, current run id)
  src/src/r3fresh/tool.py        (tool decorator wrapper loop)

Python floats are modelled as rationals, identifier and clock reads as an
oracle of streams consumed by a counter, and JSON-like values as an
inductive type.  Fields of the event envelope that no property touches
(timestamps as strings, agent id, env, version stamps) are not carried on
events; everything the properties mention is modelled faithfully.
-/

namespace R3fresh

/-- Character-list prefix test, used to model the Python substring operator. -/
def leadMatch : List Char → List Char → Bool
  | [], _ => true
  | _ :: _, [] => false
  | a :: as, b :: bs => a = b && leadMatch as bs

/-- Character-list infix test: does the first list occur inside the second. -/
def midMatch (sub : List Char) : List Char → Bool
  | [] => match sub with
          | [] => true
          | _ :: _ => false
  | b :: bs => leadMatch sub (b :: bs) || midMatch sub bs

/-- Model of the Python expression sub in hay for strings. -/
def strContains (hay sub : String) : Bool := midMatch sub.data hay.data

/-- Model of the Python method str.lower, character by character. -/
def toLowerStr (s : String) : String := String.mk (s.data.map Char.toLower)

/-- Structured error record, util.create_structured_error output shape
(keys type, message, source, retryable, optional code).  The field etype
models the Python key named type. -/
structure StructuredError where
  etype : String
  message : String
  source : String
  retryable : Bool
  code : Option String
deriving Repr, DecidableEq

/-- The fixed retryable type-name set of util.create_structured_error. -/
def retryable_errors : List String :=
  ["ConnectionError", "TimeoutError", "TemporaryFailure",
   "RateLimitError", "ServiceUnavailableError"]

/-- Model of util.create_structured_error: the type label and message are
taken from the exception; retryable is the explicit argument when given,
otherwise auto-classified from the type label or a case-insensitive
timeout substring of the message. -/
def create_structured_error (etype emessage source : String)
    (code : Option String) (retryable : Option Bool) : StructuredError :=
  let auto := retryable_errors.contains etype ||
    strContains (toLowerStr emessage) "timeout"
  { etype := etype, message := emessage, source := source,
    retryable := retryable.getD auto, code := code }

/-- JSON-like values: the data redact_sensitive operates on.  vnull models
the Python value None. -/
inductive Value where
  | vstr : String → Value
  | vint : Int → Value
  | vbool : Bool → Value
  | vnull : Value
  | vdict : List (String × Value) → Value
  | vlist : List Value → Value
deriving Repr

/-- The sensitive-key substring set of util.redact_sensitive. -/
def sensitive_keys : List String :=
  ["password", "token", "api_key", "apikey", "secret", "key"]

/-- A mapping key is sensitive when its lowercase form contains one of the
sensitive substrings (util.redact_sensitive inner check). -/
def sensitiveKey (k : String) : Bool :=
  sensitive_keys.any (fun w => strContains (toLowerStr k) w)

mutual

/-- Model of util.redact_sensitive: truncate long strings, mask values of
sensitive keys in mappings, recurse into mappings and sequences, pass
every other value through unchanged. -/
def redact_sensitive (max_length : Nat) : Value → Value
  | Value.vstr s =>
      if s.length > max_length then
        Value.vstr (String.mk (s.data.take max_length) ++ "... (truncated)")
      else
        Value.vstr s
  | Value.vdict kvs => Value.vdict (redactEntries max_length kvs)
  | Value.vlist xs => Value.vlist (redactItems max_length xs)
  | Value.vint n => Value.vint n
  | Value.vbool b => Value.vbool b
  | Value.vnull => Value.vnull

/-- The dict branch of util.redact_sensitive, item by item. -/
def redactEntries (max_length : Nat) :
    List (String × Value) → List (String × Value)
  | [] => []
  | (k, v) :: rest =>
      (if sensitiveKey k then (k, Value.vstr "***REDACTED***")
       else (k, redact_sensitive max_length v)) :: redactEntries max_length rest

/-- The list branch of util.redact_sensitive, item by item. -/
def redactItems (max_length : Nat) : List Value → List Value
  | [] => []
  | v :: rest => redact_sensitive max_length v :: redactItems max_length rest

end

/-- Policy state, policy.py: configuration plus the mutable budget
counter. -/
structure Policy where
  allowed_tools : List String
  denied_tools : List String
  default_allow : Bool
  max_tool_calls_per_run : Option Nat
  tool_call_count : Nat
deriving Repr, DecidableEq

/-- Policy construction, Policy.__init__: a missing or empty set becomes
the empty set and the counter starts at zero. -/
def mkPolicy (allowed denied : Option (List String)) (default_allow : Bool)
    (max_tool_calls_per_run : Option Nat) : Policy :=
  { allowed_tools := allowed.getD [], denied_tools := denied.getD [],
    default_allow := default_allow,
    max_tool_calls_per_run := max_tool_calls_per_run, tool_call_count := 0 }

/-- Model of Policy.check_tool: budget first, then the deny list, then the
allow list, then the default flag; otherwise allowed. -/
def Policy.check_tool (p : Policy) (tool_name : String) : Bool × String :=
  if p.max_tool_calls_per_run.isSome ∧
      (p.max_tool_calls_per_run.getD 0) ≤ p.tool_call_count then
    (false, "Budget exceeded: " ++ toString p.tool_call_count ++ "/" ++
      toString (p.max_tool_calls_per_run.getD 0) ++ " tool calls")
  else if p.denied_tools.contains tool_name then
    (false, "Tool '" ++ tool_name ++ "' is in denied_tools list")
  else if p.allowed_tools ≠ [] ∧ ¬ p.allowed_tools.contains tool_name then
    (false, "Tool '" ++ tool_name ++ "' is not in allowed_tools list")
  else if ¬ p.default_allow ∧ p.allowed_tools = [] then
    (false, "default_allow is False and no allowed_tools specified")
  else
    (true, "allowed")

/-- Model of Policy.record_tool_call: budget counter increment. -/
def Policy.record_tool_call (p : Policy) : Policy :=
  { p with tool_call_count := p.tool_call_count + 1 }

/-- Model of Policy.reset_budget: counter back to zero at run entry. -/
def Policy.reset_budget (p : Policy) : Policy :=
  { p with tool_call_count := 0 }

/-- A Python exception value as the pipeline sees it: its class name and
its message (str of the exception). -/
structure PyExc where
  etype : String
  message : String
deriving Repr, DecidableEq

/-- Telemetry events, events.py constructors.  Each constructor carries the
fields the corresponding events.py builder stores in the envelope and the
metadata mapping; the run.start and run.end constructors follow the calls
made by run.py. -/
inductive Event where
  | toolRequest (event_id : String) (run_id : Option String)
      (tool_name tool_call_id : String) (args : Value) (attempt : Nat)
  | policyDecision (event_id : String) (run_id : Option String)
      (tool_name tool_call_id decision reason : String)
      (latency_ms : ℚ) (attempt : Nat)
  | toolResponse (event_id : String) (run_id : Option String)
      (tool_name tool_call_id status : String)
      (policy_latency_ms tool_latency_ms total_latency_ms : ℚ)
      (attempt retries : Nat) (error : Option StructuredError)
      (result : Option Value)
  | runStart (run_id : Option String) (purpose : Option String)
  | runEnd (run_id : Option String) (success : Bool)
      (error : Option StructuredError)
      (tool_calls_total tool_calls_allowed tool_calls_denied
        tool_calls_error tool_calls_retried : Nat)
      (avg_tool_latency_ms avg_policy_latency_ms total_run_duration_ms : ℚ)
      (tasks_completed tasks_failed handoffs : Nat)
deriving Repr

/-- The event_type string of an event, as events.py sets it. -/
def Event.kindOf : Event → String
  | .toolRequest _ _ _ _ _ _ => "tool.request"
  | .policyDecision _ _ _ _ _ _ _ _ => "policy.decision"
  | .toolResponse _ _ _ _ _ _ _ _ _ _ _ _ => "tool.response"
  | .runStart _ _ => "run.start"
  | .runEnd _ _ _ _ _ _ _ _ _ _ _ _ _ _ => "run.end"

/-- The tool_call_id metadata field, present on the three tool-pipeline
event kinds. -/
def Event.callIdOf : Event → Option String
  | .toolRequest _ _ _ cid _ _ => some cid
  | .policyDecision _ _ _ cid _ _ _ _ => some cid
  | .toolResponse _ _ _ cid _ _ _ _ _ _ _ _ => some cid
  | _ => none

/-- The run_id envelope field of an event. -/
def Event.runIdOf : Event → Option String
  | .toolRequest _ rid _ _ _ _ => rid
  | .policyDecision _ rid _ _ _ _ _ _ => rid
  | .toolResponse _ rid _ _ _ _ _ _ _ _ _ _ => rid
  | .runStart rid _ => rid
  | .runEnd rid _ _ _ _ _ _ _ _ _ _ _ _ _ => rid

/-- The attempt metadata field of the tool-pipeline event kinds. -/
def Event.attemptOf : Event → Option Nat
  | .toolRequest _ _ _ _ _ a => some a
  | .policyDecision _ _ _ _ _ _ _ a => some a
  | .toolResponse _ _ _ _ _ _ _ _ a _ _ _ => some a
  | _ => none

/-- The status metadata field of a tool.response event. -/
def Event.statusOf : Event → Option String
  | .toolResponse _ _ _ _ st _ _ _ _ _ _ _ => some st
  | _ => none

/-- The retries metadata field of a tool.response event. -/
def Event.retriesOf : Event → Option Nat
  | .toolResponse _ _ _ _ _ _ _ _ _ r _ _ => some r
  | _ => none

/-- The decision metadata field of a policy.decision event. -/
def Event.decisionOf : Event → Option String
  | .policyDecision _ _ _ _ d _ _ _ => some d
  | _ => none

/-- The tool_latency_ms metadata field of a tool.response event. -/
def Event.toolLatencyOf : Event → Option ℚ
  | .toolResponse _ _ _ _ _ _ tl _ _ _ _ _ => some tl
  | _ => none

/-- The structured-error metadata field of a tool.response or run.end
event. -/
def Event.errorOf : Event → Option StructuredError
  | .toolResponse _ _ _ _ _ _ _ _ _ _ e _ => e
  | .runEnd _ _ e _ _ _ _ _ _ _ _ _ _ _ => e
  | _ => none

/-- The success metadata field of a run.end event. -/
def Event.successOf : Event → Option Bool
  | .runEnd _ s _ _ _ _ _ _ _ _ _ _ _ _ => some s
  | _ => none

/-- The result metadata field of a tool.response event. -/
def Event.resultOf : Event → Option Value
  | .toolResponse _ _ _ _ _ _ _ _ _ _ _ r => r
  | _ => none

/-- Event client state, client.py: a queue of pending events and the list
of events already delivered to the transport, in order. -/
structure EventClient where
  batch_size : Nat
  queue : List Event
  delivered : List Event

/-- Model of EventClient.flush: deliver all queued events and clear the
queue; an empty queue returns at once. -/
def EventClient.flush (c : EventClient) : EventClient :=
  if c.queue.isEmpty then c
  else { c with queue := [], delivered := c.delivered ++ c.queue }

/-- Model of EventClient.emit: enqueue the event and flush when the batch
size is reached. -/
def EventClient.emit (c : EventClient) (e : Event) : EventClient :=
  let c2 : EventClient := { c with queue := c.queue ++ [e] }
  if c.batch_size ≤ c2.queue.length then c2.flush else c2

/-- All events the client has seen, in emission order. -/
def EventClient.allEvents (c : EventClient) : List Event :=
  c.delivered ++ c.queue

/-- Per-run mutable state, run.py: the run identifier (assigned at scope
entry), the started flag, the start time and the statistics
accumulators. -/
structure RunState where
  run_id : Option String
  purpose : Option String
  started : Bool
  start_time : Option ℚ
  tool_calls_total : Nat
  tool_calls_allowed : Nat
  tool_calls_denied : Nat
  tool_calls_error : Nat
  tool_calls_retried : Nat
  tool_latencies : List ℚ
  policy_latencies : List ℚ
  tasks_completed : Nat
  tasks_failed : Nat
  handoffs : Nat
deriving Repr, DecidableEq

/-- Model of Run.__init__: identifier unset, not started, all statistics
zero. -/
def RunState.init (purpose : Option String) : RunState :=
  { run_id := none, purpose := purpose, started := false, start_time := none,
    tool_calls_total := 0, tool_calls_allowed := 0, tool_calls_denied := 0,
    tool_calls_error := 0, tool_calls_retried := 0, tool_latencies := [],
    policy_latencies := [], tasks_completed := 0, tasks_failed := 0,
    handoffs := 0 }

/-- Model of Run.record_tool_call: statistics counters and latency
samples. -/
def RunState.record_tool_call (r : RunState)
    (allowed denied error retried : Bool)
    (tool_latency_ms policy_latency_ms : ℚ) : RunState :=
  { r with
    tool_calls_total := r.tool_calls_total + 1,
    tool_calls_allowed := r.tool_calls_allowed + (if allowed then 1 else 0),
    tool_calls_denied := r.tool_calls_denied + (if denied then 1 else 0),
    tool_calls_error := r.tool_calls_error + (if error then 1 else 0),
    tool_calls_retried := r.tool_calls_retried + (if retried then 1 else 0),
    tool_latencies :=
      if 0 < tool_latency_ms then r.tool_latencies ++ [tool_latency_ms]
      else r.tool_latencies,
    policy_latencies :=
      if 0 < policy_latency_ms then r.policy_latencies ++ [policy_latency_ms]
      else r.policy_latencies }

/-- ALM instance state, alm.py: the policy, the event client and the
current-run pointer. -/
structure ALM where
  policy : Policy
  client : EventClient
  current_run : Option RunState

/-- Model of ALM._current_run_id: the current run identifier when a run
object is set and its identifier is truthy, otherwise none. -/
def ALM.currentRunId (a : ALM) : Option String :=
  match a.current_run with
  | some r =>
      match r.run_id with
      | some rid => if rid = "" then none else some rid
      | none => none
  | none => none

/-- The oracle for the two effectful generators the pipeline consumes:
uuid4 identifiers and the wall clock, each read by a counter. -/
structure Oracle where
  ids : Nat → String
  clock : Nat → ℚ

/-- Full system state threaded through the embedding: the ALM instance
plus the consumption counters for the identifier and clock streams. -/
structure SysState where
  alm : ALM
  idCtr : Nat
  timeCtr : Nat

/-- Model of util.new_id: read the next identifier from the stream. -/
def drawId (o : Oracle) (s : SysState) : String × SysState :=
  (o.ids s.idCtr, { s with idCtr := s.idCtr + 1 })

/-- Model of time.time: read the next clock sample. -/
def timeNow (o : Oracle) (s : SysState) : ℚ × SysState :=
  (o.clock s.timeCtr, { s with timeCtr := s.timeCtr + 1 })

/-- Emit an event through the ALM client. -/
def emitEv (e : Event) (s : SysState) : SysState :=
  { s with alm := { s.alm with client := s.alm.client.emit e } }

/-- The statistics-recording step of tool.py: forwarded to the current run
when one is set, a no-op otherwise. -/
def recordRunStats (allowed denied error retried : Bool)
    (tool_latency_ms policy_latency_ms : ℚ) (s : SysState) : SysState :=
  match s.alm.current_run with
  | some r =>
      let r2 := r.record_tool_call allowed denied error retried
        tool_latency_ms policy_latency_ms
      { s with alm := { s.alm with current_run := some r2 } }
  | none => s

/-- The budget-recording step of tool.py: Policy.record_tool_call on the
ALM policy. -/
def recordPolicyCall (s : SysState) : SysState :=
  { s with alm := { s.alm with policy := s.alm.policy.record_tool_call } }

/-- Model of the wrapper loop of the tool decorator (tool.py, the while
True body): emit the request, check the policy, on denial emit the deny
decision and the denied response and raise a PermissionError; on allow
execute the body, on success record the budget call and emit the success
response, on failure classify the error and either retry (no response
emitted for the failed attempt) or emit the error response, record the
budget call and re-raise.  The body is modelled as a function of the
attempt number, so one Python call of the wrapped function is one
evaluation at the current attempt. -/
def toolWrapperLoop (o : Oracle) (name : String) (max_retries : Nat)
    (body : Nat → Except PyExc Value) (args : Value) (tool_call_id : String)
    (attempt retries : Nat) (s : SysState) :
    Except PyExc Value × SysState :=
  let (total_start, s) := timeNow o s
  let redacted_args := redact_sensitive 1000 args
  let (reqId, s) := drawId o s
  let s := emitEv (Event.toolRequest reqId s.alm.currentRunId name
    tool_call_id redacted_args attempt) s
  let (policy_start, s) := timeNow o s
  let pres := s.alm.policy.check_tool name
  let allowed := pres.1
  let reason := pres.2
  let (tpol, s) := timeNow o s
  let policy_latency_ms := (tpol - policy_start) * 1000
  if allowed = false then
    let (decId, s) := drawId o s
    let s := emitEv (Event.policyDecision decId s.alm.currentRunId name
      tool_call_id "deny" reason policy_latency_ms attempt) s
    let (tEnd, s) := timeNow o s
    let total_latency_ms := (tEnd - total_start) * 1000
    let deniedMsg := "Tool '" ++ name ++ "' denied: " ++ reason
    let denied_error := create_structured_error "PermissionError" deniedMsg
      "policy" none none
    let (respId, s) := drawId o s
    let s := emitEv (Event.toolResponse respId s.alm.currentRunId name
      tool_call_id "denied" policy_latency_ms 0 total_latency_ms attempt
      retries (some denied_error) none) s
    let s := recordRunStats false true false (decide (0 < retries)) 0
      policy_latency_ms s
    (Except.error { etype := "PermissionError", message := deniedMsg }, s)
  else
    let (decId, s) := drawId o s
    let s := emitEv (Event.policyDecision decId s.alm.currentRunId name
      tool_call_id "allow" reason policy_latency_ms attempt) s
    let (tool_start, s) := timeNow o s
    match body attempt with
    | Except.ok result =>
        let s := recordPolicyCall s
        let (t1, s) := timeNow o s
        let tool_latency_ms := (t1 - tool_start) * 1000
        let (t2, s) := timeNow o s
        let total_latency_ms := (t2 - total_start) * 1000
        let resultField := match result with
          | Value.vnull => none
          | r => some (redact_sensitive 1000 r)
        let (respId, s) := drawId o s
        let s := emitEv (Event.toolResponse respId s.alm.currentRunId name
          tool_call_id "success" policy_latency_ms tool_latency_ms
          total_latency_ms attempt retries none resultField) s
        let s := recordRunStats true false false (decide (0 < retries))
          tool_latency_ms policy_latency_ms s
        (Except.ok result, s)
    | Except.error e =>
        let (t1, s) := timeNow o s
        let tool_latency_ms := (t1 - tool_start) * 1000
        let (t2, s) := timeNow o s
        let total_latency_ms := (t2 - total_start) * 1000
        let err := create_structured_error e.etype e.message "tool" none none
        if h : err.retryable = true ∧ attempt ≤ max_retries ∧ attempt < 3 then
          let s := recordRunStats true false true true tool_latency_ms
            policy_latency_ms s
          toolWrapperLoop o name max_retries body args tool_call_id
            (attempt + 1) (retries + 1) s
        else
          let (respId, s) := drawId o s
          let s := emitEv (Event.toolResponse respId s.alm.currentRunId name
            tool_call_id "error" policy_latency_ms tool_latency_ms
            total_latency_ms attempt retries (some err) none) s
          let s := recordRunStats true false true (decide (0 < retries))
            tool_latency_ms policy_latency_ms s
          let s := recordPolicyCall s
          (Except.error e, s)
termination_by 3 - attempt
decreasing_by omega

/-- Model of the tool decorator wrapper, tool.py: draw the tool-call
identifier once, then run the attempt loop starting at attempt 1 with no
retries so far.  The max_retries argument models the local variable of the
wrapper (tool.py line 43); the source fixes it at codeMaxRetries. -/
def toolWrapper (o : Oracle) (name : String) (max_retries : Nat)
    (body : Nat → Except PyExc Value) (args : Value) (s : SysState) :
    Except PyExc Value × SysState :=
  let (tool_call_id, s) := drawId o s
  toolWrapperLoop o name max_retries body args tool_call_id 1 0 s

/-- The value tool.py line 43 gives the max_retries variable. -/
def codeMaxRetries : Nat := 0

/-- Model of ALM.run followed by Run.__enter__ on the returned run: create
the run object and bind the current-run pointer (alm.py), then assign the
run identifier, mark the run started, record the start time, emit
run.start and reset the policy budget (run.py).  Scope operations act on
the current run object; no claim involves nested runs, where the pointer
and the scoped object could differ. -/
def runScopeEnter (o : Oracle) (purpose : Option String) (s : SysState) :
    SysState :=
  let s := { s with alm :=
    { s.alm with current_run := some (RunState.init purpose) } }
  let (rid, s) := drawId o s
  let (t0, s) := timeNow o s
  let r : RunState :=
    { RunState.init purpose with
        run_id := some rid, started := true, start_time := some t0 }
  let s := { s with alm := { s.alm with current_run := some r } }
  let s := emitEv (Event.runStart (some rid) purpose) s
  { s with alm := { s.alm with policy := s.alm.policy.reset_budget } }

/-- Model of Run.__exit__ on the current run object: nothing happens when
the run was never started; otherwise compute the summary, normalize a
propagating exception with source agent, emit run.end with the success
flag, flush the client, and return false so the exception is never
suppressed.  As in the source, the current-run pointer of the ALM
instance is left untouched. -/
def runScopeExit (o : Oracle) (exc : Option PyExc) (s : SysState) :
    SysState × Bool :=
  match s.alm.current_run with
  | none => (s, false)
  | some r =>
      if r.started = false then (s, false)
      else
        let success := exc.isNone
        let error := exc.map (fun e =>
          create_structured_error e.etype e.message "agent" none none)
        let (total_run_duration_ms, s) := match r.start_time with
          | some t0 =>
              let (tEnd, s) := timeNow o s
              ((tEnd - t0) * 1000, s)
          | none => ((0 : ℚ), s)
        let avg_tool := if r.tool_latencies.isEmpty then 0
          else r.tool_latencies.sum / (r.tool_latencies.length : ℚ)
        let avg_policy := if r.policy_latencies.isEmpty then 0
          else r.policy_latencies.sum / (r.policy_latencies.length : ℚ)
        let s := emitEv (Event.runEnd r.run_id success error
          r.tool_calls_total r.tool_calls_allowed r.tool_calls_denied
          r.tool_calls_error r.tool_calls_retried avg_tool avg_policy
          total_run_duration_ms r.tasks_completed r.tasks_failed
          r.handoffs) s
        let s := { s with alm := { s.alm with client := s.alm.client.flush } }
        (s, false)

/-- Fresh event client, EventClient.__init__ with the default batch
size. -/
def emptyClient : EventClient := { batch_size := 50, queue := [], delivered := [] }

/-- ALM instance with the all-default policy, a fresh client and no
current run, as built by ALM.__init__ with only identity arguments. -/
def defaultAlm : ALM :=
  { policy := mkPolicy none none true none, client := emptyClient,
    current_run := none }

/-- Initial system state over defaultAlm with fresh oracle counters. -/
def state0 : SysState := { alm := defaultAlm, idCtr := 0, timeCtr := 0 }

/-- ALM instance whose policy puts the name blocked on the deny list. -/
def deniedAlm : ALM :=
  { policy := mkPolicy none (some ["blocked"]) true none,
    client := emptyClient, current_run := none }

/-- Initial system state over deniedAlm. -/
def deniedState : SysState := { alm := deniedAlm, idCtr := 0, timeCtr := 0 }

/-- A concrete oracle for witnesses and counterexamples: constant
identifier stream and an integer-valued clock. -/
def oracle0 : Oracle := { ids := fun _ => "i", clock := fun n => (n : ℚ) }

/-- A timeout-classified exception: its type name is in the retryable
set. -/
def timeoutExc : PyExc := { etype := "TimeoutError", message := "read timeout" }

/-- Tool body failing with a timeout-classified error on attempts 1 and 2
and returning the string ok on attempt 3. -/
def timeoutTwiceBody : Nat → Except PyExc Value := fun n =>
  if n < 3 then Except.error timeoutExc else Except.ok (Value.vstr "ok")

/-- Tool body returning the string ok at once. -/
def okBody : Nat → Except PyExc Value := fun _ => Except.ok (Value.vstr "ok")

/-- Events appended to the client log between two states. -/
def eventsAdded (before after : SysState) : List Event :=
  after.alm.client.allEvents.drop before.alm.client.allEvents.length

/-- The budget clause of Policy.check_tool as a proposition: a budget is
configured and the call count has reached it. -/
def budgetReached (p : Policy) : Prop :=
  p.max_tool_calls_per_run.isSome ∧
    p.max_tool_calls_per_run.getD 0 ≤ p.tool_call_count

instance (p : Policy) : Decidable (budgetReached p) := by
  unfold budgetReached
  infer_instance

/-- Spec-side sensitive-key test, following the claim wording: the key
case-insensitively contains one of the six fixed substrings. -/
def specSensitiveKey (k : String) : Bool :=
  strContains (toLowerStr k) "password" || strContains (toLowerStr k) "token" ||
  strContains (toLowerStr k) "api_key" || strContains (toLowerStr k) "apikey" ||
  strContains (toLowerStr k) "secret" || strContains (toLowerStr k) "key"

mutual

/-- Spec-side redaction at the fixed threshold 1000, written from the
claim wording alone: a mapping value under a sensitive key becomes the
literal redaction marker, a string longer than the threshold is truncated
to the threshold plus the truncation marker suffix, every other scalar
passes through unchanged, and the rule recurses into nested mappings and
sequences.  To be compared with redact_sensitive, which is translated
from the source. -/
def redactSpec : Value → Value
  | Value.vstr s =>
      if 1000 < s.length then
        Value.vstr (String.mk (s.data.take 1000) ++ "... (truncated)")
      else Value.vstr s
  | Value.vdict kvs => Value.vdict (redactSpecEntries kvs)
  | Value.vlist xs => Value.vlist (redactSpecItems xs)
  | Value.vint n => Value.vint n
  | Value.vbool b => Value.vbool b
  | Value.vnull => Value.vnull

/-- Spec-side redaction of mapping entries. -/
def redactSpecEntries : List (String × Value) → List (String × Value)
  | [] => []
  | (k, v) :: rest =>
      (if specSensitiveKey k then (k, Value.vstr "***REDACTED***")
       else (k, redactSpec v)) :: redactSpecEntries rest

/-- Spec-side redaction of sequence items. -/
def redactSpecItems : List Value → List Value
  | [] => []
  | v :: rest => redactSpec v :: redactSpecItems rest

end

/-- Conclusion of the amended C1 claim at an invocation result: the
timeout failure of the first attempt is re-raised rather than retried,
and the log gains exactly one request/decision/response triad, on
attempt 1 with retries 0 and status error. -/
def c1Post (r : Except PyExc Value × SysState) : Prop :=
  r.1 = Except.error timeoutExc ∧
  r.2.alm.client.allEvents.map (fun e => (e.kindOf, e.attemptOf)) =
    [("tool.request", some 1), ("policy.decision", some 1),
     ("tool.response", some 1)] ∧
  r.2.alm.client.allEvents.map (fun e => (e.statusOf, e.retriesOf)) =
    [(none, none), (none, none), (some "error", some 0)]

/-- The message of the PermissionError raised when the tool named blocked
is denied by deniedAlm. -/
def deniedMsgBlocked : String :=
  "Tool 'blocked' denied: Tool 'blocked' is in denied_tools list"

/-- The PermissionError the wrapper raises when the policy denies a tool
with the given reason (tool.py line 133). -/
def deniedExc (name reason : String) : PyExc :=
  { etype := "PermissionError",
    message := "Tool '" ++ name ++ "' denied: " ++ reason }

/-- Conclusion of the C6 claim at an invocation result from state s: the
PermissionError carrying the policy reason is raised, and the log gains
exactly a request, a deny decision and one denied response on attempt 1
with zero tool latency, no retries and a policy-sourced structured
error. -/
def c6DenyPost (name : String) (s : SysState)
    (r : Except PyExc Value × SysState) : Prop :=
  r.1 = Except.error (deniedExc name (s.alm.policy.check_tool name).2) ∧
  (eventsAdded s r.2).map (fun e => (e.kindOf, e.attemptOf)) =
    [("tool.request", some 1), ("policy.decision", some 1),
     ("tool.response", some 1)] ∧
  (eventsAdded s r.2).map Event.decisionOf = [none, some "deny", none] ∧
  (eventsAdded s r.2).map (fun e => (e.statusOf, e.toolLatencyOf, e.retriesOf)) =
    [(none, none, none), (none, none, none),
     (some "denied", some 0, some 0)] ∧
  (eventsAdded s r.2).map Event.errorOf =
    [none, none, some (create_structured_error "PermissionError"
      ("Tool '" ++ name ++ "' denied: " ++ (s.alm.policy.check_tool name).2)
      "policy" none none)]

/-- System state after entering a run scope and exiting it normally: the
point of the C5 scenario at which no run scope is active any more. -/
def afterRunState : SysState :=
  (runScopeExit oracle0 none (runScopeEnter oracle0 none state0)).1

/-- System state with a started run scope. -/
def startedState : SysState := runScopeEnter oracle0 none state0

/-- The run object held by startedState. -/
def startedRun : RunState :=
  { run_id := some "i", purpose := none, started := true, start_time := some 0,
    tool_calls_total := 0, tool_calls_allowed := 0, tool_calls_denied := 0,
    tool_calls_error := 0, tool_calls_retried := 0, tool_latencies := [],
    policy_latencies := [], tasks_completed := 0, tasks_failed := 0,
    handoffs := 0 }

/-! Infrastructure lemmas about the client log and the state helpers. -/

theorem queue_flush (c : EventClient) : c.flush.queue = [] := by
  unfold EventClient.flush
  by_cases h : c.queue.isEmpty
  · simp [h, List.isEmpty_iff.mp h]
  · simp [h]

theorem allEvents_flush (c : EventClient) : c.flush.allEvents = c.allEvents := by
  unfold EventClient.flush EventClient.allEvents
  by_cases h : c.queue.isEmpty
  · simp [h]
  · simp [h]

theorem allEvents_emit (c : EventClient) (e : Event) :
    (c.emit e).allEvents = c.allEvents ++ [e] := by
  unfold EventClient.emit
  by_cases h : c.batch_size ≤ c.queue.length + 1
  · simp only [List.length_append, List.length_cons, List.length_nil,
      Nat.zero_add, h, if_true]
    rw [allEvents_flush]
    simp [EventClient.allEvents]
  · simp [h, EventClient.allEvents]

theorem emitEv_policy (e : Event) (s : SysState) :
    (emitEv e s).alm.policy = s.alm.policy := rfl

theorem emitEv_current_run (e : Event) (s : SysState) :
    (emitEv e s).alm.current_run = s.alm.current_run := rfl

theorem emitEv_allEvents (e : Event) (s : SysState) :
    (emitEv e s).alm.client.allEvents = s.alm.client.allEvents ++ [e] := by
  unfold emitEv
  simp [allEvents_emit]

theorem recordRunStats_policy (a b c d : Bool) (x y : ℚ) (s : SysState) :
    (recordRunStats a b c d x y s).alm.policy = s.alm.policy := by
  unfold recordRunStats
  cases h : s.alm.current_run <;> simp

theorem recordRunStats_client (a b c d : Bool) (x y : ℚ) (s : SysState) :
    (recordRunStats a b c d x y s).alm.client = s.alm.client := by
  unfold recordRunStats
  cases h : s.alm.current_run <;> simp

theorem recordPolicyCall_policy (s : SysState) :
    (recordPolicyCall s).alm.policy = s.alm.policy.record_tool_call := rfl

theorem recordPolicyCall_client (s : SysState) :
    (recordPolicyCall s).alm.client = s.alm.client := rfl

/-- Loop invariant: across one whole invocation the policy is changed
exactly by one record_tool_call when the (unchanging) policy decision is
allow, and not at all when it is deny. -/
theorem loop_policy (o : Oracle) (name : String) (mr : Nat)
    (body : Nat → Except PyExc Value) (args : Value) (cid : String) :
    ∀ k attempt retries s, 3 - attempt ≤ k →
      (toolWrapperLoop o name mr body args cid attempt retries s).2.alm.policy =
        (if (s.alm.policy.check_tool name).1 = true then
          s.alm.policy.record_tool_call else s.alm.policy) := by
  intro k
  induction k with
  | zero =>
      intro attempt retries s hk
      rw [toolWrapperLoop.eq_def]
      simp only [timeNow, drawId]
      by_cases hA : (s.alm.policy.check_tool name).1 = false
      · simp [hA, emitEv_policy, recordRunStats_policy]
      · simp only [Bool.not_eq_false] at hA
        cases hb : body attempt with
        | ok v =>
            simp [hA, hb, emitEv_policy, recordRunStats_policy,
              recordPolicyCall_policy]
        | error ex =>
            have hnr : ¬ ((create_structured_error ex.etype ex.message "tool"
                none none).retryable = true ∧ attempt ≤ mr ∧ attempt < 3) := by
              intro hc
              omega
            simp [hA, hb, hnr, emitEv_policy, recordRunStats_policy,
              recordPolicyCall_policy]
  | succ k ih =>
      intro attempt retries s hk
      rw [toolWrapperLoop.eq_def]
      simp only [timeNow, drawId]
      by_cases hA : (s.alm.policy.check_tool name).1 = false
      · simp [hA, emitEv_policy, recordRunStats_policy]
      · simp only [Bool.not_eq_false] at hA
        cases hb : body attempt with
        | ok v =>
            simp [hA, hb, emitEv_policy, recordRunStats_policy,
              recordPolicyCall_policy]
        | error ex =>
            by_cases hr : (create_structured_error ex.etype ex.message "tool"
                none none).retryable = true ∧ attempt ≤ mr ∧ attempt < 3
            · simp [hA, hb, hr, emitEv_policy, recordRunStats_policy,
                recordPolicyCall_policy]
              rw [ih]
              · simp [emitEv_policy, recordRunStats_policy, hA]
              · omega
            · simp [hA, hb, hr, emitEv_policy, recordRunStats_policy,
                recordPolicyCall_policy]

/-- Loop invariant: every event the loop adds to the client log carries
the tool-call identifier it was given. -/
theorem loop_events (o : Oracle) (name : String) (mr : Nat)
    (body : Nat → Except PyExc Value) (args : Value) (cid : String) :
    ∀ k attempt retries s, 3 - attempt ≤ k →
      ∀ e ∈ (toolWrapperLoop o name mr body args cid attempt retries
          s).2.alm.client.allEvents,
        e ∈ s.alm.client.allEvents ∨ e.callIdOf = some cid := by
  intro k
  induction k with
  | zero =>
      intro attempt retries s hk e he
      rw [toolWrapperLoop.eq_def] at he
      simp only [timeNow, drawId] at he
      by_cases hA : (s.alm.policy.check_tool name).1 = false
      · simp [hA, emitEv_policy, emitEv_allEvents, recordRunStats_client,
          recordPolicyCall_client] at he
        rcases he with h | rfl | rfl | rfl
        · exact Or.inl h
        · exact Or.inr rfl
        · exact Or.inr rfl
        · exact Or.inr rfl
      · simp only [Bool.not_eq_false] at hA
        cases hb : body attempt with
        | ok v =>
            simp [hA, hb, emitEv_policy, emitEv_allEvents,
              recordRunStats_client, recordPolicyCall_client] at he
            rcases he with h | rfl | rfl | rfl
            · exact Or.inl h
            · exact Or.inr rfl
            · exact Or.inr rfl
            · exact Or.inr rfl
        | error ex =>
            have hnr : ¬ ((create_structured_error ex.etype ex.message "tool"
                none none).retryable = true ∧ attempt ≤ mr ∧ attempt < 3) := by
              intro hc
              omega
            simp [hA, hb, hnr, emitEv_policy, emitEv_allEvents,
              recordRunStats_client, recordPolicyCall_client] at he
            rcases he with h | rfl | rfl | rfl
            · exact Or.inl h
            · exact Or.inr rfl
            · exact Or.inr rfl
            · exact Or.inr rfl
  | succ k ih =>
      intro attempt retries s hk e he
      rw [toolWrapperLoop.eq_def] at he
      simp only [timeNow, drawId] at he
      by_cases hA : (s.alm.policy.check_tool name).1 = false
      · simp [hA, emitEv_policy, emitEv_allEvents, recordRunStats_client,
          recordPolicyCall_client] at he
        rcases he with h | rfl | rfl | rfl
        · exact Or.inl h
        · exact Or.inr rfl
        · exact Or.inr rfl
        · exact Or.inr rfl
      · simp only [Bool.not_eq_false] at hA
        cases hb : body attempt with
        | ok v =>
            simp [hA, hb, emitEv_policy, emitEv_allEvents,
              recordRunStats_client, recordPolicyCall_client] at he
            rcases he with h | rfl | rfl | rfl
            · exact Or.inl h
            · exact Or.inr rfl
            · exact Or.inr rfl
            · exact Or.inr rfl
        | error ex =>
            by_cases hr : (create_structured_error ex.etype ex.message "tool"
                none none).retryable = true ∧ attempt ≤ mr ∧ attempt < 3
            · simp [hA, hb, hr, emitEv_policy] at he
              rcases ih (attempt + 1) (retries + 1) _ (by omega) e he with
                hin | hcid
              · simp [emitEv_allEvents, recordRunStats_client] at hin
                rcases hin with h | rfl | rfl
                · exact Or.inl h
                · exact Or.inr rfl
                · exact Or.inr rfl
              · exact Or.inr hcid
            · simp [hA, hb, hr, emitEv_policy, emitEv_allEvents,
                recordRunStats_client, recordPolicyCall_client] at he
              rcases he with h | rfl | rfl | rfl
              · exact Or.inl h
              · exact Or.inr rfl
              · exact Or.inr rfl
              · exact Or.inr rfl

/-! Helper lemmas shared by the claim theorems. -/

theorem contains_iff (l : List String) (a : String) :
    l.contains a = true ↔ a ∈ l := List.elem_iff

theorem sensitiveKey_eq_spec (k : String) : sensitiveKey k = specSensitiveKey k := by
  simp [sensitiveKey, sensitive_keys, specSensitiveKey, List.any_cons,
    List.any_nil, Bool.or_assoc, Bool.or_false]

mutual

theorem redactVal_agrees (v : Value) : redact_sensitive 1000 v = redactSpec v := by
  cases v with
  | vstr s => rfl
  | vint n => rfl
  | vbool b => rfl
  | vnull => rfl
  | vdict kvs => simp [redact_sensitive, redactSpec, redactEntriesAgrees kvs]
  | vlist xs => simp [redact_sensitive, redactSpec, redactItemsAgrees xs]

theorem redactEntriesAgrees (kvs : List (String × Value)) :
    redactEntries 1000 kvs = redactSpecEntries kvs := by
  cases kvs with
  | nil => rfl
  | cons kv rest =>
      simp [redactEntries, redactSpecEntries, sensitiveKey_eq_spec,
        redactVal_agrees kv.2, redactEntriesAgrees rest]

theorem redactItemsAgrees (xs : List Value) :
    redactItems 1000 xs = redactSpecItems xs := by
  cases xs with
  | nil => rfl
  | cons x rest =>
      simp [redactItems, redactSpecItems, redactVal_agrees x,
        redactItemsAgrees rest]

end

/-! The claim theorems. -/

/-- C1 counterexample: the maximum retries the program configures is the
hardcoded 0 of tool.py line 43, never at least 2, and at that real
configuration the claimed scenario body (timeout-classified failure
twice, then ok) is not retried: the invocation re-raises the timeout
failure after a single request/decision/response triad on attempt 1 with
retries 0 and status error, and never returns ok. -/
theorem c1_counterexample :
    codeMaxRetries = 0 ∧ ¬ 2 ≤ codeMaxRetries ∧
    c1Post (toolWrapper oracle0 "fetch" codeMaxRetries timeoutTwiceBody
      Value.vnull state0) := by
  refine ⟨rfl, by norm_num [codeMaxRetries], ?_, ?_, ?_⟩ <;>
    simp [toolWrapper, toolWrapperLoop, codeMaxRetries, drawId, timeNow, emitEv,
      recordRunStats, recordPolicyCall, EventClient.emit, EventClient.flush,
      EventClient.allEvents, ALM.currentRunId, Policy.check_tool,
      Policy.record_tool_call, create_structured_error, retryable_errors,
      strContains, midMatch, leadMatch, timeoutTwiceBody, timeoutExc, state0,
      defaultAlm, emptyClient, mkPolicy, oracle0, Event.kindOf, Event.attemptOf,
      Event.statusOf, Event.retriesOf]

/-- C1 amended: the maximum retries is the hardcoded 0 of tool.py line
43, so a wrapped tool whose body raises a timeout-classified failure on
its first attempt (and would return ok on a third) is never retried: at
the program configuration the invocation emits exactly one
request/decision/response triad, on attempt 1 with retries 0 and status
error, and re-raises the timeout failure instead of returning ok. -/
theorem c1_amended_theorem (o : Oracle) (args : Value) :
    c1Post (toolWrapper o "fetch" codeMaxRetries timeoutTwiceBody args
      state0) := by
  unfold c1Post
  refine ⟨?_, ?_, ?_⟩ <;>
    simp [toolWrapper, toolWrapperLoop, codeMaxRetries, drawId, timeNow, emitEv,
      recordRunStats, recordPolicyCall, EventClient.emit, EventClient.flush,
      EventClient.allEvents, ALM.currentRunId, Policy.check_tool,
      Policy.record_tool_call, create_structured_error, retryable_errors,
      strContains, midMatch, leadMatch, timeoutTwiceBody, timeoutExc, state0,
      defaultAlm, emptyClient, mkPolicy, Event.kindOf, Event.attemptOf,
      Event.statusOf, Event.retriesOf]

/-- C2: every event in the client log after a wrapped-tool invocation
either predates the invocation or carries the tool-call identifier that
the wrapper draws exactly once at entry (the identifier-stream value at
the entry counter): the request, every policy decision and every
response of one invocation share that identifier. -/
theorem c2_tool_call_id (o : Oracle) (name : String) (mr : Nat)
    (body : Nat → Except PyExc Value) (args : Value) (s : SysState) (e : Event)
    (he : e ∈ (toolWrapper o name mr body args s).2.alm.client.allEvents) :
    e ∈ s.alm.client.allEvents ∨ e.callIdOf = some (o.ids s.idCtr) := by
  unfold toolWrapper at he
  simp only [drawId] at he
  exact loop_events o name mr body args (o.ids s.idCtr) 3 1 0
    { alm := s.alm, idCtr := s.idCtr + 1, timeCtr := s.timeCtr } (by omega) e he

/-- C2 witness: the request event of a concrete successful invocation is
in the log and carries the drawn identifier. -/
theorem c2_tool_call_id_witness :
    (Event.toolRequest "i" none "ping" "i" Value.vnull 1 ∈
      (toolWrapper oracle0 "ping" codeMaxRetries okBody Value.vnull
        state0).2.alm.client.allEvents) ∧
    (Event.toolRequest "i" none "ping" "i" Value.vnull 1 ∈
        state0.alm.client.allEvents ∨
      (Event.toolRequest "i" none "ping" "i" Value.vnull 1).callIdOf =
        some (oracle0.ids state0.idCtr)) := by
  have hm : Event.toolRequest "i" none "ping" "i" Value.vnull 1 ∈
      (toolWrapper oracle0 "ping" codeMaxRetries okBody Value.vnull
        state0).2.alm.client.allEvents := by
    simp [toolWrapper, toolWrapperLoop, codeMaxRetries, drawId, timeNow, emitEv,
      recordRunStats, recordPolicyCall, EventClient.emit, EventClient.flush,
      EventClient.allEvents, ALM.currentRunId, Policy.check_tool,
      Policy.record_tool_call, create_structured_error, retryable_errors,
      strContains, midMatch, leadMatch, state0, defaultAlm, emptyClient,
      mkPolicy, okBody, oracle0, redact_sensitive]
  exact ⟨hm, c2_tool_call_id oracle0 "ping" codeMaxRetries okBody Value.vnull
    state0 _ hm⟩

/-- C3 counterexample: a policy-denied invocation terminates (it raises a
PermissionError) but leaves the policy budget counter unchanged at 0
rather than increasing it by one: the deny path never calls
Policy.record_tool_call. -/
theorem c3_counterexample :
    ((toolWrapper oracle0 "blocked" codeMaxRetries okBody Value.vnull
        deniedState).1 =
      Except.error { etype := "PermissionError", message := deniedMsgBlocked }) ∧
    (toolWrapper oracle0 "blocked" codeMaxRetries okBody Value.vnull
        deniedState).2.alm.policy.tool_call_count = 0 ∧
    ¬ ((toolWrapper oracle0 "blocked" codeMaxRetries okBody Value.vnull
        deniedState).2.alm.policy.tool_call_count =
      deniedState.alm.policy.tool_call_count + 1) := by
  refine ⟨?_, ?_, ?_⟩ <;>
    simp [toolWrapper, toolWrapperLoop, codeMaxRetries, drawId, timeNow, emitEv,
      recordRunStats, recordPolicyCall, EventClient.emit, EventClient.flush,
      EventClient.allEvents, ALM.currentRunId, Policy.check_tool,
      Policy.record_tool_call, create_structured_error, retryable_errors,
      strContains, midMatch, leadMatch, deniedState, deniedAlm, emptyClient,
      mkPolicy, deniedMsgBlocked, okBody, oracle0]

/-- C3 amended: the policy budget counter is incremented exactly once per
invocation whose policy decision is allow (success or final failure
alike), and a policy-denied invocation leaves it unchanged. -/
theorem c3_amended_theorem (o : Oracle) (name : String) (mr : Nat)
    (body : Nat → Except PyExc Value) (args : Value) (s : SysState) :
    ((s.alm.policy.check_tool name).1 = true →
      (toolWrapper o name mr body args s).2.alm.policy.tool_call_count =
        s.alm.policy.tool_call_count + 1) ∧
    ((s.alm.policy.check_tool name).1 = false →
      (toolWrapper o name mr body args s).2.alm.policy.tool_call_count =
        s.alm.policy.tool_call_count) := by
  constructor
  · intro h
    unfold toolWrapper
    simp only [drawId]
    rw [loop_policy o name mr body args (o.ids s.idCtr) 3 1 0 _ (by omega)]
    simp [h, Policy.record_tool_call]
  · intro h
    unfold toolWrapper
    simp only [drawId]
    rw [loop_policy o name mr body args (o.ids s.idCtr) 3 1 0 _ (by omega)]
    simp [h]

/-- C3 amended witness: the denied branch of the amended claim at the
concrete blocked-tool state. -/
theorem c3_amended_witness :
    (deniedState.alm.policy.check_tool "blocked").1 = false ∧
    (toolWrapper oracle0 "blocked" codeMaxRetries okBody Value.vnull
        deniedState).2.alm.policy.tool_call_count =
      deniedState.alm.policy.tool_call_count :=
  ⟨by decide,
    (c3_amended_theorem oracle0 "blocked" codeMaxRetries okBody Value.vnull
      deniedState).2 (by decide)⟩

/-- C4: whenever the policy decision for an invocation is allow, the
whole invocation increments the policy budget counter by exactly one,
however many retry attempts occur: Policy.record_tool_call runs once at
the terminal outcome and never on a retried attempt. -/
theorem c4_budget_once (o : Oracle) (name : String) (mr : Nat)
    (body : Nat → Except PyExc Value) (args : Value) (s : SysState)
    (h : (s.alm.policy.check_tool name).1 = true) :
    (toolWrapper o name mr body args s).2.alm.policy.tool_call_count =
      s.alm.policy.tool_call_count + 1 := by
  unfold toolWrapper
  simp only [drawId]
  rw [loop_policy o name mr body args (o.ids s.idCtr) 3 1 0 _ (by omega)]
  simp [h, Policy.record_tool_call]

/-- C4 witness: a call retried twice before succeeding increments the
budget counter by 1, not 3. -/
theorem c4_budget_once_witness :
    (state0.alm.policy.check_tool "fetch").1 = true ∧
    (toolWrapper oracle0 "fetch" 2 timeoutTwiceBody Value.vnull
        state0).2.alm.policy.tool_call_count =
      state0.alm.policy.tool_call_count + 1 :=
  ⟨by decide,
    c4_budget_once oracle0 "fetch" 2 timeoutTwiceBody Value.vnull state0
      (by decide)⟩

/-- C5 evidence of the code bug: after a run scope has been entered and
exited, a tool invocation still emits its request, decision and response
with the finished run identifier (not none), and still mutates the
finished run statistics, because Run.__exit__ never clears the
current-run pointer. -/
theorem c5_stale_run_id :
    (eventsAdded afterRunState
        (toolWrapper oracle0 "ping" codeMaxRetries okBody Value.vnull
          afterRunState).2).map Event.runIdOf =
      [some "i", some "i", some "i"] ∧
    afterRunState.alm.current_run.map RunState.tool_calls_total = some 0 ∧
    (toolWrapper oracle0 "ping" codeMaxRetries okBody Value.vnull
        afterRunState).2.alm.current_run.map RunState.tool_calls_total =
      some 1 := by
  refine ⟨?_, ?_, ?_⟩ <;>
    simp [toolWrapper, toolWrapperLoop, codeMaxRetries, drawId, timeNow, emitEv,
      recordRunStats, recordPolicyCall, EventClient.emit, EventClient.flush,
      EventClient.allEvents, ALM.currentRunId, Policy.check_tool,
      Policy.record_tool_call, Policy.reset_budget, create_structured_error,
      retryable_errors, strContains, midMatch, leadMatch, afterRunState,
      runScopeEnter, runScopeExit, RunState.init, RunState.record_tool_call,
      state0, defaultAlm, emptyClient, mkPolicy, okBody, oracle0, eventsAdded,
      Event.runIdOf]

/-- C6: every invocation of a wrapped tool whose policy decision is deny,
from any state, any tool name, any max retries and any denial cause,
never invokes the wrapped callable (the outcome is identical for any
two bodies), emits a request, a deny decision and exactly one denied
response on attempt 1 with zero tool latency, no retries and a
policy-sourced PermissionError, and raises that PermissionError to the
caller. -/
theorem c6_deny_pipeline (o : Oracle) (name : String) (mr : Nat)
    (body1 body2 : Nat → Except PyExc Value) (args : Value) (s : SysState)
    (hd : (s.alm.policy.check_tool name).1 = false) :
    (toolWrapper o name mr body1 args s =
      toolWrapper o name mr body2 args s) ∧
    c6DenyPost name s (toolWrapper o name mr body1 args s) := by
  unfold c6DenyPost
  refine ⟨?_, ?_, ?_, ?_, ?_, ?_⟩
  all_goals
    simp only [toolWrapper, drawId]
    rw [toolWrapperLoop.eq_def]
    try rw [toolWrapperLoop.eq_def]
  all_goals
    simp [hd, timeNow, drawId, deniedExc, emitEv_policy, emitEv_allEvents,
      recordRunStats_client, recordPolicyCall_client, eventsAdded,
      List.drop_left, Event.kindOf, Event.attemptOf, Event.decisionOf,
      Event.statusOf, Event.toolLatencyOf, Event.retriesOf, Event.errorOf,
      create_structured_error, retryable_errors]

/-- C6 witness: the deny pipeline exercised at the deny-list denial of
the tool named blocked, with two observably different bodies. -/
theorem c6_deny_pipeline_witness :
    (deniedState.alm.policy.check_tool "blocked").1 = false ∧
    ((toolWrapper oracle0 "blocked" codeMaxRetries okBody Value.vnull
        deniedState =
      toolWrapper oracle0 "blocked" codeMaxRetries timeoutTwiceBody Value.vnull
        deniedState) ∧
     c6DenyPost "blocked" deniedState
       (toolWrapper oracle0 "blocked" codeMaxRetries okBody Value.vnull
         deniedState)) :=
  ⟨by decide,
    c6_deny_pipeline oracle0 "blocked" codeMaxRetries okBody timeoutTwiceBody
      Value.vnull deniedState (by decide)⟩

/-- C7: policy evaluation denies in this order: configured budget
reached, deny-list membership, absence from a non-empty allow list,
default-deny with no allow list; otherwise it allows.  Deny-list
membership wins over allow-list membership, and the whitelist scenario
denies y with the allow-list-exclusion reason. -/
theorem c7_policy_order (p : Policy) (name : String) :
    (budgetReached p →
      (p.check_tool name).1 = false) ∧
    (¬ budgetReached p → name ∈ p.denied_tools →
      p.check_tool name = (false, "Tool '" ++ name ++ "' is in denied_tools list")) ∧
    (¬ budgetReached p → name ∉ p.denied_tools → p.allowed_tools ≠ [] →
      name ∉ p.allowed_tools →
      p.check_tool name = (false, "Tool '" ++ name ++ "' is not in allowed_tools list")) ∧
    (¬ budgetReached p → name ∉ p.denied_tools → p.allowed_tools = [] →
      p.default_allow = false →
      p.check_tool name = (false, "default_allow is False and no allowed_tools specified")) ∧
    (¬ budgetReached p → name ∉ p.denied_tools →
      (name ∈ p.allowed_tools ∨ (p.allowed_tools = [] ∧ p.default_allow = true)) →
      p.check_tool name = (true, "allowed")) ∧
    (¬ budgetReached p → name ∈ p.denied_tools → name ∈ p.allowed_tools →
      (p.check_tool name).1 = false) ∧
    ((mkPolicy (some ["x"]) none false none).check_tool "y" =
      (false, "Tool 'y' is not in allowed_tools list")) := by
  refine ⟨?_, ?_, ?_, ?_, ?_, ?_, ?_⟩
  · intro hb
    unfold budgetReached at hb
    simp [Policy.check_tool, hb]
  · intro hb hd
    unfold budgetReached at hb
    simp [Policy.check_tool, hb, hd, contains_iff]
  · intro hb hd hne hna
    unfold budgetReached at hb
    simp [Policy.check_tool, hb, hd, hne, hna, contains_iff]
  · intro hb hd hae hda
    unfold budgetReached at hb
    simp [Policy.check_tool, hb, hd, hae, hda, contains_iff]
  · intro hb hd hal
    unfold budgetReached at hb
    rcases hal with ha | h2
    · have hne : p.allowed_tools ≠ [] := by
        intro hc
        rw [hc] at ha
        exact absurd ha (List.not_mem_nil name)
      simp [Policy.check_tool, hb, hd, ha, hne, contains_iff]
    · simp [Policy.check_tool, hb, hd, h2.1, h2.2, contains_iff]
  · intro hb hd ha
    unfold budgetReached at hb
    simp [Policy.check_tool, hb, hd, ha, contains_iff]
  · decide

/-- C7 witness: with a tool name on both the allow and deny lists and no
budget configured, the decision is deny with the deny-list reason. -/
theorem c7_policy_order_witness :
    ¬ budgetReached (mkPolicy (some ["x"]) (some ["x"]) true none) ∧
    "x" ∈ (mkPolicy (some ["x"]) (some ["x"]) true none).denied_tools ∧
    (mkPolicy (some ["x"]) (some ["x"]) true none).check_tool "x" =
      (false, "Tool 'x' is in denied_tools list") :=
  ⟨by decide, by decide,
    (c7_policy_order (mkPolicy (some ["x"]) (some ["x"]) true none) "x").2.1
      (by decide) (by decide)⟩

/-- C8: when an exception escapes a started run scope, scope exit emits a
run.end event whose success flag is false and whose structured error has
the exception class name as type and agent as source, then flushes the
sink (the queue ends empty), and returns false so the exception is never
suppressed. -/
theorem c8_run_end_failure (o : Oracle) (s : SysState) (r : RunState)
    (ex : PyExc) (hr : s.alm.current_run = some r) (hs : r.started = true) :
    (runScopeExit o (some ex) s).2 = false ∧
    (runScopeExit o (some ex) s).1.alm.client.queue = [] ∧
    ((runScopeExit o (some ex) s).1.alm.client.allEvents.getLast?).map
      Event.kindOf = some "run.end" ∧
    ((runScopeExit o (some ex) s).1.alm.client.allEvents.getLast?).bind
      Event.successOf = some false ∧
    (((runScopeExit o (some ex) s).1.alm.client.allEvents.getLast?).bind
        Event.errorOf).map (fun er => (er.etype, er.source)) =
      some (ex.etype, "agent") := by
  unfold runScopeExit
  rw [hr]
  cases hst : r.start_time with
  | none =>
      refine ⟨?_, ?_, ?_, ?_, ?_⟩ <;>
        simp [hs, hst, timeNow, emitEv, queue_flush, allEvents_flush,
          allEvents_emit, List.getLast?_concat, Event.kindOf, Event.successOf,
          Event.errorOf, create_structured_error]
  | some t0 =>
      refine ⟨?_, ?_, ?_, ?_, ?_⟩ <;>
        simp [hs, hst, timeNow, emitEv, queue_flush, allEvents_flush,
          allEvents_emit, List.getLast?_concat, Event.kindOf, Event.successOf,
          Event.errorOf, create_structured_error]

/-- C8 witness: the claim instantiated at the concrete started run state
with a concrete propagating exception. -/
theorem c8_run_end_failure_witness :
    startedState.alm.current_run = some startedRun ∧
    startedRun.started = true ∧
    ((runScopeExit oracle0 (some timeoutExc) startedState).2 = false ∧
     (runScopeExit oracle0 (some timeoutExc) startedState).1.alm.client.queue = [] ∧
     ((runScopeExit oracle0 (some timeoutExc)
        startedState).1.alm.client.allEvents.getLast?).map Event.kindOf =
       some "run.end" ∧
     ((runScopeExit oracle0 (some timeoutExc)
        startedState).1.alm.client.allEvents.getLast?).bind Event.successOf =
       some false ∧
     (((runScopeExit oracle0 (some timeoutExc)
         startedState).1.alm.client.allEvents.getLast?).bind
         Event.errorOf).map (fun er => (er.etype, er.source)) =
       some (timeoutExc.etype, "agent")) :=
  ⟨by decide, by decide,
    c8_run_end_failure oracle0 startedState startedRun timeoutExc (by decide)
      (by decide)⟩

/-- C9: redaction as implemented (truncate strings above the 1000
character threshold, replace values of mapping keys that
case-insensitively contain a sensitive substring at every nesting depth,
pass other scalars through) agrees pointwise with the redaction function
written from the claim wording. -/
theorem c9_redaction (v : Value) : redact_sensitive 1000 v = redactSpec v :=
  redactVal_agrees v

/-- C10: an explicit retryable flag is taken as given; an absent flag is
auto-classified true exactly for the five fixed retryable type names or a
message containing timeout case-insensitively. -/
theorem c10_retryable_classification :
    ∀ etype msg source code,
      (∀ b : Bool,
        (create_structured_error etype msg source code (some b)).retryable = b) ∧
      ((create_structured_error etype msg source code none).retryable = true ↔
        (etype = "ConnectionError" ∨ etype = "TimeoutError" ∨
         etype = "TemporaryFailure" ∨ etype = "RateLimitError" ∨
         etype = "ServiceUnavailableError" ∨
         strContains (toLowerStr msg) "timeout" = true)) := by
  intro etype msg source code
  constructor
  · intro b
    rfl
  · simp [create_structured_error, retryable_errors, contains_iff,
      Bool.or_eq_true, List.mem_cons]
    tauto

end R3fresh
